import Mathlib

/-!
# A shallow embedding of `localize.py`

This file embeds the static-file translation module `localize.py` in Lean 4
and settles a list of behavioural claims about it.

Modelling conventions:

* Python's module-level globals `__source_lang`, `__target_lang` and
  `__translations` become an explicit state record `LocState`, threaded
  through every stateful operation; each operation returns
  `Except PyErr α × LocState` (the exception raised or the value returned,
  together with the state of the globals when control leaves the function).
* The resource directory is a value `FS`: file names mapped to either a
  parsed JSON object or a parse failure, in discovery order.  `open` +
  `json.load` in `__load_translations` becomes a lookup in this map.
* Language-code arguments are modelled as `String` (for the optional
  `target_lang`, `Option String`); Python's `type(x) is not str` face of the
  validation is outside the embedding, the length test is kept verbatim.
* `str.lower` is modelled per character (`pyLower`), which agrees with
  CPython on the ASCII codes the module handles.
* The parsed values of a `.translation` JSON object are `JVal`: a string or
  a non-string JSON value (only str-ness and blank-after-strip matter to the
  module).
-/

set_option linter.unusedVariables false
set_option maxRecDepth 4096

namespace Localize

/-- A parsed JSON value stored in a `.translation` object: either a string
or some non-string value (number, null); the module only ever distinguishes
"is a `str`" and the stripped length of a string. -/
inductive JVal where
  | jstr (s : String)
  | jnum (n : Int)
  | jnull
  deriving DecidableEq, Repr

/-- A parsed `.translation` JSON object: insertion-ordered key/value pairs. -/
abbrev TransData := List (String × JVal)

/-- What the bytes of one file on disk parse to: a well-formed JSON object,
or malformed content (`json.decoder.JSONDecodeError`). -/
inductive FileContent where
  | ok (d : TransData)
  | malformed
  deriving DecidableEq, Repr

/-- The working resource directory: file names with their contents, in the
order `glob.glob` discovers them. -/
abbrev FS := List (String × FileContent)

/-- Opening a file by name. -/
def fsLookup (fs : FS) (name : String) : Option FileContent := fs.lookup name

/-- The Python exceptions the module raises, with the message (for
`KeyError`, the offending key, which is what CPython stores). -/
inductive PyErr where
  | fileNotFound (msg : String)
  | jsonDecodeError (msg : String)
  | valueError (msg : String)
  | runtimeError (msg : String)
  | keyError (key : String)
  | attributeError (msg : String)
  | runtimeWarning (msg : String)
  deriving DecidableEq, Repr

instance {ε α : Type} [DecidableEq ε] [DecidableEq α] : DecidableEq (Except ε α) :=
  fun x y =>
    match x, y with
    | .ok a, .ok b =>
      if h : a = b then isTrue (by rw [h]) else isFalse (by simp [h])
    | .error a, .error b =>
      if h : a = b then isTrue (by rw [h]) else isFalse (by simp [h])
    | .ok _, .error _ => isFalse (by simp)
    | .error _, .ok _ => isFalse (by simp)

/-- `s.lower()`, per character. -/
def pyLower (s : String) : String := ⟨s.data.map Char.toLower⟩

/-- `len(s)` for a Python string. -/
def pyLen (s : String) : Nat := s.data.length

/-- `s[:2]`. -/
def pyTake2 (s : String) : String := ⟨s.data.take 2⟩

/-- Python's `sub in big` substring test. -/
def containsStr (big small : String) : Prop := small.data <:+: big.data

instance (big small : String) : Decidable (containsStr big small) :=
  List.decidableInfix small.data big.data

/-- `len(s.strip())`: the length of `s` after stripping leading and trailing
whitespace. -/
def pyStripLen (s : String) : Nat :=
  (((s.data.dropWhile Char.isWhitespace).reverse.dropWhile Char.isWhitespace).reverse).length

/-- The module globals: `__source_lang`, `__target_lang`, `__translations`. -/
structure LocState where
  source_lang : Option String
  target_lang : Option String
  translations : TransData
  deriving DecidableEq, Repr

/-- The state right after `import localize`. -/
def initState : LocState := ⟨none, none, []⟩

/-! ## Error message literals of the source -/

def srcLangValueMsg : String :=
  "source_lang must be a two character string, such as 'en' or 'pl'."

def tgtLangValueMsgTranslator : String :=
  "target_lang must be either a two character string, or the value None."

def tgtLangValueMsgTwoChar : String :=
  "target_lang must be a two character string, such as 'en' or 'pl'."

def getlangsValueMsg : String :=
  "source_lang must be a string of exactly two characters in length."

def fileNotFoundMsg (target_lang : String) : String :=
  "No translation file found for target language '" ++ target_lang ++ "'."

def parseErrorMsg (target_lang : String) : String :=
  "\nCouldn't parse JSON in file '" ++ target_lang ++ ".translation'. "
    ++ "Check to make sure it is not malformed.\n"
    ++ "Location of error in JSON data file"

def sourceNotSetMsg : String :=
  "The source language of your script has not been set to valid data. "
    ++ "Please make sure it is set in your calling script by first calling "
    ++ "the function translator() with a valid source_lang parameter."

def targetBadMsg : String :=
  "The target language of your script has been set to a bad value. "
    ++ "Please make sure it is set in your calling script by first calling "
    ++ "the function translator() with a valid target_lang parameter, or "
    ++ "otherwise setting the target_lang to None."

def keyNotFoundMsg (source_phrase target_lang : String) : String :=
  "Source phrase '" ++ source_phrase
    ++ "' was not found in the translation file for target_lang '"
    ++ target_lang ++ "'."

def mismatchMsg (lang declared source : String) : String :=
  "The translation file for '" ++ lang ++ "' defines a source language of '"
    ++ declared ++ "' which does not match the "
    ++ "program's specified source language of '" ++ source ++ "'."

def wrapLoadMsg (lang : String) : String :=
  "Could not load the translation file for '" ++ lang
    ++ "'. Please check the file for errors."

/-! ## `__load_translations` -/

/-- `__load_translations(target_lang)`: open `target_lang + ".translation"`,
parse it and replace the store.  On `FileNotFoundError` or
`JSONDecodeError` the store is untouched — the assignment to
`__translations` happens only after a successful `json.load`. -/
def loadTranslations (fs : FS) (target_lang : String) (st : LocState) :
    Except PyErr Unit × LocState :=
  match fsLookup fs (target_lang ++ ".translation") with
  | none => (.error (.fileNotFound (fileNotFoundMsg target_lang)), st)
  | some .malformed => (.error (.jsonDecodeError (parseErrorMsg target_lang)), st)
  | some (.ok d) => (.ok (), { st with translations := d })

/-! ## `get_lang_readable_name` -/

/-- `get_lang_readable_name(lang)`.  Note two things the source really does:
the `'en'` bypass compares the code as given (case-sensitively), and the
load uses `lang` as given, without lowercasing.  There is no `try/finally`:
if the loaded file lacks `"__target_lang_readable"` the `KeyError`
propagates after the store has already been replaced, skipping the
restore. -/
def get_lang_readable_name (fs : FS) (lang : String) (st : LocState) :
    Except PyErr JVal × LocState :=
  if lang = "en" then (.ok (.jstr "English"), st)
  else if pyLen lang ≠ 2 then (.error (.valueError srcLangValueMsg), st)
  else
    let temptrans := st.translations
    match loadTranslations fs lang st with
    | (.error e, st') => (.error e, st')
    | (.ok _, st') =>
      match st'.translations.lookup "__target_lang_readable" with
      | none => (.error (.keyError "__target_lang_readable"), st')
      | some v => (.ok v, { st' with translations := temptrans })

/-! ## `translator` -/

/-- `translator(source_lang, target_lang=None)`.  On success the Python
function returns the `__gettext` closure; the embedding returns `()` and the
lookup is `gettext` applied to the resulting state. -/
def translator (fs : FS) (source_lang : String) (target_lang : Option String)
    (st : LocState) : Except PyErr Unit × LocState :=
  if pyLen source_lang ≠ 2 then (.error (.valueError srcLangValueMsg), st)
  else
    let st1 := { st with source_lang := some (pyLower source_lang) }
    match target_lang with
    | none =>
      let st2 := { st1 with target_lang := none }
      (.ok (), { st2 with translations := [] })
    | some t =>
      if pyLen t = 2 then
        let st2 := { st1 with target_lang := some (pyLower t) }
        if pyLower t ≠ pyLower source_lang then
          loadTranslations fs (pyLower t) st2
        else
          (.ok (), { st2 with translations := [] })
      else (.error (.valueError tgtLangValueMsgTranslator), st1)

/-! ## `__gettext` -/

/-- `__gettext(source_phrase)`, reading the globals. -/
def gettext (st : LocState) (source_phrase : String) : Except PyErr JVal :=
  match st.source_lang with
  | none => .error (.runtimeError sourceNotSetMsg)
  | some s =>
    if pyLen s ≠ 2 then .error (.runtimeError sourceNotSetMsg)
    else
      match st.target_lang with
      | none => .ok (.jstr source_phrase)
      | some t =>
        if pyLen t ≠ 2 then .error (.runtimeError targetBadMsg)
        else if t = s then .ok (.jstr source_phrase)
        else
          match st.translations.lookup source_phrase with
          | some v => .ok v
          | none => .error (.keyError (keyNotFoundMsg source_phrase t))

/-! ## The catalog scanner

`re.finditer(r'^.*_\(["\'](.+?)["\']\).*$', script, re.M)` produces one
match per line that contains the lookup idiom (`group(0)` is the whole
line, so `finditer` yields at most one match per line, and the leading
greedy `.*` selects the rightmost viable `_(`); each match is then kept
only when `re.search(r'^.*#', group(0))` fails, i.e. when the line contains
no `#` at all. -/

/-- `["\']`: the character class matching either quote. -/
def isQuoteCh (c : Char) : Bool := c = '"' || c = '\''

/-- The lazy tail `(.+?)["\']\)`: consume the shortest nonempty capture such
that the next two characters are a quote and `)`.  `acc` is the reversed
capture consumed so far. -/
def findCap (acc : List Char) : List Char → Option (List Char)
  | [] => none
  | c :: cs =>
    if !acc.isEmpty && isQuoteCh c && (cs.head? == some ')') then
      some acc.reverse
    else findCap (c :: acc) cs

/-- One candidate start of `_\(["\']` followed by the lazy capture; the
argument is the suffix of the line beginning at the candidate `_`. -/
def tryStart : List Char → Option (List Char)
  | '_' :: '(' :: q :: rest => if isQuoteCh q then findCap [] rest else none
  | _ => none

/-- `group(1)` of `^.*_\(["\'](.+?)["\']\).*$` on one line, or `none` when
the line does not match.  The leading greedy `.*` backtracks from the end,
so the rightmost viable start wins. -/
def scanFrom : List Char → Option (List Char)
  | [] => none
  | c :: cs =>
    match scanFrom cs with
    | some r => some r
    | none => tryStart (c :: cs)

/-- The lines `re.M` sees: `\n`-separated segments of the script. -/
def pyLines (script : String) : List (List Char) := script.data.splitOn '\n'

/-- The shared extraction: the `group(1)` captures of the per-line matches,
in line order, minus every match whose line contains `#`.  Duplicates are
kept — `cleanup_translation_data` consumes this list as is, the dict-based
consumers collapse them via `dictUpdate`. -/
def scanScript (script : String) : List String :=
  (pyLines script).filterMap fun line =>
    match scanFrom line with
    | some cap => if line.contains '#' then none else some (String.mk cap)
    | none => none

/-- Python `dict.update({k: v})` on an insertion-ordered dict: overwrite the
value in place when the key exists, append otherwise. -/
def dictUpdate (d : List (String × String)) (k v : String) :
    List (String × String) :=
  if d.any (fun kv => kv.1 == k) then
    d.map (fun kv => if kv.1 = k then (k, v) else kv)
  else d ++ [(k, v)]

/-- The `scriptdata`/`data` dict built by `get_data_template` and
`validate_translation_data`: the three special keys seeded first, then every
scanned phrase added (mapped to `""`). -/
def scriptDict (script : String) (source_lang target_lang : String) :
    List (String × String) :=
  (scanScript script).foldl (fun d p => dictUpdate d p "")
    [("__source_lang", source_lang), ("__target_lang", target_lang),
     ("__target_lang_readable", "")]

/-- `key[:2] == "__"`. -/
def isSpecialKey (k : String) : Bool := k.data.take 2 == ['_', '_']

/-- `json.dumps(data, indent=4)` for a dict of strings (string escaping is
not modelled; no claim inspects escaped output). -/
def jsonDumps (d : List (String × String)) : String :=
  "\x7b\n"
    ++ String.intercalate ",\n"
        (d.map fun kv => "    \"" ++ kv.1 ++ "\": \"" ++ kv.2 ++ "\"")
    ++ "\n\x7d"

/-! ## `get_data_template` -/

/-- `get_data_template(source_lang, target_lang)`; `script` is the text of
the calling file `inspect.stack()[1].filename`.  Both codes are lowercased
before use. -/
def get_data_template (script : String) (source_lang target_lang : String) :
    Except PyErr String :=
  if pyLen source_lang ≠ 2 then .error (.valueError srcLangValueMsg)
  else if pyLen target_lang ≠ 2 then .error (.valueError tgtLangValueMsgTwoChar)
  else .ok (jsonDumps (scriptDict script (pyLower source_lang) (pyLower target_lang)))

/-! ## `cleanup_translation_data` -/

/-- `cleanup_translation_data(target_lang)`.  Note what the source really
does: `target_lang` is validated but not lowercased; `transbackup` is taken
and never restored, so the loaded file's contents remain in the store on
every path that loads. -/
def cleanup_translation_data (fs : FS) (script : String) (target_lang : String)
    (st : LocState) : Except PyErr String × LocState :=
  if pyLen target_lang ≠ 2 then (.error (.valueError tgtLangValueMsgTwoChar), st)
  else
    let scriptdata := scanScript script
    match loadTranslations fs target_lang st with
    | (.error e, st') => (.error e, st')
    | (.ok _, st') =>
      let report := (st'.translations.map Prod.fst).filterMap fun phrase =>
        if isSpecialKey phrase then none
        else if scriptdata.contains phrase then none
        else some ("'" ++ phrase ++ "' was not found in the source code.")
      (.ok (String.intercalate "\n" report), st')

/-! ## `validate_translation_data` -/

/-- The success summary literal. -/
def validateSummary (n m : Nat) : String :=
  "Found " ++ toString n ++ " unique translatable strings in file, plus "
    ++ toString m ++ " special keys. All translation data OK."

/-- The line collected for a key that is missing from the loaded file. -/
def missingLine (key : String) : String := "    \"" ++ key ++ "\": None,\n"

/-- The line collected for a key present without a valid translation. -/
def incompleteLine (key : String) : String :=
  "(!) Source phrase '" ++ key
    ++ "' exists in file but has no valid translation to return."

/-- The `missings` accumulator of `validate_translation_data`: one
suggested-JSON line per `scriptdata` key absent from the loaded file, in
`scriptdata` order. -/
def validateMissings (scriptdata : List (String × String)) (tr : TransData) :
    List String :=
  scriptdata.filterMap fun kv =>
    if (tr.lookup kv.1).isNone then some (missingLine kv.1) else none

/-- The `incompletes` accumulator of `validate_translation_data`: one
warning line per `scriptdata` key whose value on file is not a `str` or is
blank after `strip()`, in `scriptdata` order. -/
def validateIncompletes (scriptdata : List (String × String)) (tr : TransData) :
    List String :=
  scriptdata.filterMap fun kv =>
    match tr.lookup kv.1 with
    | none => none
    | some (.jstr s) =>
      if pyStripLen s < 1 then some (incompleteLine kv.1) else none
    | some _ => some (incompleteLine kv.1)

/-- The report string raised with the `RuntimeWarning`: incompletes, then
(when any key is missing) a header plus the missing lines, newline-joined,
with the trailing `",\n"` artifact trimmed when missings were appended. -/
def validateReport (incompletes missings : List String) : String :=
  if missings.length > 0 then
    ⟨(String.intercalate "\n" (incompletes
        ++ (["(!) Source phrase for the following keys does not exist on file:"]
            ++ missings))).data.dropLast.dropLast⟩
  else String.intercalate "\n" incompletes

/-- `validate_translation_data(source_lang, target_lang)`; `script` is the
text of the calling file.  On the warning path the store still holds the
loaded file (the restore statement sits after the `raise`); only the
success path restores. -/
def validate_translation_data (fs : FS) (script : String)
    (source_lang target_lang : String) (st : LocState) :
    Except PyErr String × LocState :=
  if pyLen source_lang ≠ 2 then (.error (.valueError srcLangValueMsg), st)
  else if pyLen target_lang ≠ 2 then (.error (.valueError tgtLangValueMsgTwoChar), st)
  else
    match loadTranslations fs (pyLower target_lang) st with
    | (.error e, st') => (.error e, st')
    | (.ok _, st') =>
      if (validateIncompletes (scriptDict script (pyLower source_lang) (pyLower target_lang))
            st'.translations).length > 0 ∨
         (validateMissings (scriptDict script (pyLower source_lang) (pyLower target_lang))
            st'.translations).length > 0 then
        (.error (.runtimeWarning ("Errors found in translation data:\n"
            ++ validateReport
                (validateIncompletes
                  (scriptDict script (pyLower source_lang) (pyLower target_lang))
                  st'.translations)
                (validateMissings
                  (scriptDict script (pyLower source_lang) (pyLower target_lang))
                  st'.translations))), st')
      else
        (.ok (validateSummary
            ((scriptDict script (pyLower source_lang) (pyLower target_lang)).length
              - ((scriptDict script (pyLower source_lang) (pyLower target_lang)).filter
                  fun kv => isSpecialKey kv.1).length)
            ((scriptDict script (pyLower source_lang) (pyLower target_lang)).filter
                fun kv => isSpecialKey kv.1).length),
         { st' with translations := st.translations })

/-! ## `getlangs` -/

/-- `glob.glob("*.translation")`: the resource names ending in
`.translation`, in discovery order. -/
def globTranslation (fs : FS) : List String :=
  (fs.map Prod.fst).filter fun n => decide (".translation".data <:+ n.data)

/-- The `try`/`except RuntimeError` body of one `getlangs` iteration (the
`finally` restore lives in `getlangsLoop`).  Only `RuntimeError` is caught:
the mismatch error (whose text contains `"does not match"`) is re-raised,
any other `RuntimeError` is wrapped; `FileNotFoundError`,
`JSONDecodeError`, `KeyError` and `AttributeError` fall through the handler
unchanged. -/
def getlangsStep (fs : FS) (source_lang lang : String) (st : LocState) :
    Except PyErr Unit × LocState :=
  let body :=
    match loadTranslations fs lang st with
    | (.error e, st') => ((Except.error e : Except PyErr Unit), st')
    | (.ok _, st') =>
      match st'.translations.lookup "__source_lang" with
      | none => (.error (.keyError "__source_lang"), st')
      | some (.jstr declared) =>
        if pyLower declared ≠ source_lang then
          (.error (.runtimeError (mismatchMsg lang (pyLower declared) source_lang)), st')
        else (.ok (), st')
      | some _ => (.error (.attributeError "lower"), st')
  match body with
  | (.error (.runtimeError m), st') =>
    if containsStr m "does not match" then (.error (.runtimeError m), st')
    else (.error (.runtimeError (wrapLoadMsg lang)), st')
  | other => other

/-- The `for lang in langs` loop of `getlangs`: skip the source language,
run the step, and — `finally` — restore `temptrans` whether the step
returned or raised. -/
def getlangsLoop (fs : FS) (source_lang : String) (temptrans : TransData) :
    List String → LocState → Except PyErr Unit × LocState
  | [], st => (.ok (), st)
  | lang :: rest, st =>
    if lang = source_lang then getlangsLoop fs source_lang temptrans rest st
    else
      match getlangsStep fs source_lang lang st with
      | (.ok _, st') =>
        getlangsLoop fs source_lang temptrans rest { st' with translations := temptrans }
      | (.error e, st') => (.error e, { st' with translations := temptrans })

/-- `getlangs(source_lang)`. -/
def getlangs (fs : FS) (source_lang : String) (st : LocState) :
    Except PyErr (List String) × LocState :=
  if pyLen source_lang ≠ 2 then (.error (.valueError getlangsValueMsg), st)
  else
    let s := pyLower source_lang
    let langs := (s :: globTranslation fs).map pyTake2
    match getlangsLoop fs s st.translations langs st with
    | (.ok _, st') => (.ok langs, st')
    | (.error e, st') => (.error e, st')

end Localize

/-! ## Helper lemmas -/

namespace Localize

theorem pyLen_pyLower (s : String) : pyLen (pyLower s) = pyLen s := by
  simp [pyLen, pyLower]

theorem containsStr_of_eq {big small : String} (pre post : String)
    (h : big = pre ++ small ++ post) : containsStr big small := by
  subst h
  exact ⟨pre.data, post.data, by simp [String.data_append]⟩

end Localize

/-! ## Claims -/

/-- C1: for every valid two-character language code `L`, after
`translator(L, L)` or `translator(L, None)` the returned lookup function is
the identity: for every phrase `p`, lookup returns `p` unchanged and never
raises (and `translator` itself succeeds). -/
theorem Localize.c1_passthrough_identity (fs : Localize.FS) (st : Localize.LocState)
    (L p : String) (hL : Localize.pyLen L = 2) :
    (Localize.translator fs L (some L) st).1 = .ok () ∧
    Localize.gettext (Localize.translator fs L (some L) st).2 p = .ok (.jstr p) ∧
    (Localize.translator fs L none st).1 = .ok () ∧
    Localize.gettext (Localize.translator fs L none st).2 p = .ok (.jstr p) := by
  simp [Localize.translator, Localize.gettext, hL, Localize.pyLen_pyLower]

/-- C1 witness at `L = "en"`, `p = "hello"`. -/
theorem Localize.c1_witness :
    Localize.pyLen "en" = 2 ∧
    Localize.gettext (Localize.translator [] "en" (some "en") Localize.initState).2 "hello"
      = .ok (.jstr "hello") :=
  ⟨by decide, (Localize.c1_passthrough_identity [] Localize.initState "en" "hello"
      (by decide)).2.1⟩

/-- C2: after `translator(src, tgt)` with valid codes whose lowercased forms
differ and whose translation file loads as mapping `d`, lookup of a phrase
`P` mapped to `T` in `d` returns `T`, and lookup of a phrase that is not a
key of `d` raises a `KeyError` whose message contains both the phrase and
the active (lowercased) target language. -/
theorem Localize.c2_translate_lookup (fs : Localize.FS) (st : Localize.LocState)
    (s t : String) (d : Localize.TransData)
    (hs : Localize.pyLen s = 2) (ht : Localize.pyLen t = 2)
    (hne : Localize.pyLower t ≠ Localize.pyLower s)
    (hfile : Localize.fsLookup fs (Localize.pyLower t ++ ".translation")
      = some (.ok d)) :
    (Localize.translator fs s (some t) st).1 = .ok () ∧
    (∀ P T, d.lookup P = some T →
      Localize.gettext (Localize.translator fs s (some t) st).2 P = .ok T) ∧
    (∀ P, d.lookup P = none →
      Localize.gettext (Localize.translator fs s (some t) st).2 P
          = .error (.keyError (Localize.keyNotFoundMsg P (Localize.pyLower t))) ∧
        Localize.containsStr (Localize.keyNotFoundMsg P (Localize.pyLower t)) P ∧
        Localize.containsStr (Localize.keyNotFoundMsg P (Localize.pyLower t))
          (Localize.pyLower t)) := by
  have hload : Localize.translator fs s (some t) st
      = (.ok (), { st with source_lang := some (Localize.pyLower s),
                           target_lang := some (Localize.pyLower t),
                           translations := d }) := by
    simp [Localize.translator, hs, ht, hne, Localize.loadTranslations, hfile]
  refine ⟨by simp [hload], ?_, ?_⟩
  · intro P T hPT
    simp [hload, Localize.gettext, Localize.pyLen_pyLower, hs, ht, hne, hPT]
  · intro P hP
    refine ⟨?_, ?_, ?_⟩
    · simp [hload, Localize.gettext, Localize.pyLen_pyLower, hs, ht, hne, hP]
    · exact Localize.containsStr_of_eq "Source phrase '"
        ("' was not found in the translation file for target_lang '"
          ++ Localize.pyLower t ++ "'.")
        (by simp [Localize.keyNotFoundMsg, String.append_assoc])
    · exact Localize.containsStr_of_eq
        ("Source phrase '" ++ P
          ++ "' was not found in the translation file for target_lang '")
        "'." (by simp [Localize.keyNotFoundMsg, String.append_assoc])

/-- C2 witness: source `"en"`, target `"pl"`, a one-entry mapping; the mapped
phrase translates and the unmapped phrase raises `KeyError` mentioning both
the phrase and the target language. -/
theorem Localize.c2_witness :
    Localize.gettext
        (Localize.translator [("pl.translation", .ok [("Hello", .jstr "Czesc")])]
          "en" (some "pl") Localize.initState).2 "Hello" = .ok (.jstr "Czesc") ∧
    Localize.gettext
        (Localize.translator [("pl.translation", .ok [("Hello", .jstr "Czesc")])]
          "en" (some "pl") Localize.initState).2 "Bye"
      = .error (.keyError (Localize.keyNotFoundMsg "Bye" (Localize.pyLower "pl"))) := by
  have h := Localize.c2_translate_lookup
    [("pl.translation", .ok [("Hello", .jstr "Czesc")])] Localize.initState
    "en" "pl" [("Hello", .jstr "Czesc")]
    (by decide) (by decide) (by decide) (by decide)
  exact ⟨h.2.1 "Hello" (.jstr "Czesc") rfl, (h.2.2 "Bye" rfl).1⟩

/-- C10 (implicit): `translator` with a valid `source_lang` and a
`target_lang` that is a string of the wrong length raises the `ValueError`
only after `__source_lang` has been overwritten with the lowercased source,
while `__target_lang` and `__translations` are left untouched. -/
theorem Localize.c10_translator_not_atomic (fs : Localize.FS)
    (st : Localize.LocState) (s t : String)
    (hs : Localize.pyLen s = 2) (ht : Localize.pyLen t ≠ 2) :
    Localize.translator fs s (some t) st
      = (.error (.valueError Localize.tgtLangValueMsgTranslator),
         { st with source_lang := some (Localize.pyLower s) }) := by
  simp [Localize.translator, hs, ht]

/-- C10 witness at `s = "EN"`, `t = "xyz"`. -/
theorem Localize.c10_witness :
    Localize.translator [] "EN" (some "xyz")
        ⟨none, some "pl", [("a", .jstr "b")]⟩
      = (.error (.valueError Localize.tgtLangValueMsgTranslator),
         ⟨some "en", some "pl", [("a", .jstr "b")]⟩) := by
  have h := Localize.c10_translator_not_atomic []
    ⟨none, some "pl", [("a", .jstr "b")]⟩ "EN" "xyz" (by decide) (by decide)
  simpa using h

/-- C4: the store invariant.  `__load_translations` either fails leaving the
store exactly as it was (missing file or parse error), or succeeds leaving
the store holding the fully parsed contents of the one requested file; and
`translator` with no distinct target resets the store to empty. -/
theorem Localize.c4_store_invariant (fs : Localize.FS) (t : String)
    (st : Localize.LocState) :
    (∀ e st', Localize.loadTranslations fs t st = (.error e, st') → st' = st) ∧
    (∀ st', Localize.loadTranslations fs t st = (.ok (), st') →
      ∃ d, Localize.fsLookup fs (t ++ ".translation") = some (.ok d) ∧
        st' = { st with translations := d }) ∧
    (∀ L st', Localize.pyLen L = 2 →
      Localize.translator fs L none st = (.ok (), st') → st'.translations = []) := by
  refine ⟨?_, ?_, ?_⟩
  · intro e st' h
    unfold Localize.loadTranslations at h
    rcases hf : Localize.fsLookup fs (t ++ ".translation") with _ | c
    · simp [hf] at h; exact h.2.symm
    · rcases c with d | _
      · simp [hf] at h
      · simp [hf] at h; exact h.2.symm
  · intro st' h
    unfold Localize.loadTranslations at h
    rcases hf : Localize.fsLookup fs (t ++ ".translation") with _ | c
    · simp [hf] at h
    · rcases c with d | _
      · exact ⟨d, rfl, by simp [hf] at h; exact h.symm⟩
      · simp [hf] at h
  · intro L st' hL h
    simp [Localize.translator, hL] at h
    simp [← h]

/-- C4 witness: a parse failure leaves the store untouched; a successful
load replaces it with the file's contents; a passthrough `translator`
empties it. -/
theorem Localize.c4_witness :
    Localize.loadTranslations [("pl.translation", .malformed)] "pl"
        ⟨none, none, [("k", .jstr "v")]⟩
      = (.error (.jsonDecodeError (Localize.parseErrorMsg "pl")),
         ⟨none, none, [("k", .jstr "v")]⟩) ∧
    (Localize.translator [] "en" none ⟨none, none, [("k", .jstr "v")]⟩).2.translations
      = [] := by
  constructor
  · have h := (Localize.c4_store_invariant [("pl.translation", .malformed)] "pl"
      ⟨none, none, [("k", .jstr "v")]⟩).1
    have hst := h (.jsonDecodeError (Localize.parseErrorMsg "pl"))
      (Localize.loadTranslations [("pl.translation", .malformed)] "pl"
        ⟨none, none, [("k", .jstr "v")]⟩).2 (by rfl)
    rw [show Localize.loadTranslations [("pl.translation", .malformed)] "pl"
        ⟨none, none, [("k", .jstr "v")]⟩
      = (.error (.jsonDecodeError (Localize.parseErrorMsg "pl")),
         ⟨none, none, [("k", .jstr "v")]⟩) from rfl]
  · exact (Localize.c4_store_invariant [] "en" ⟨none, none, [("k", .jstr "v")]⟩).2.2
      "en" _ (by decide) (by
        rfl)


/-- C3 (code bug): the state-restoring operations do not all restore the
saved store on every exit path.  Evaluated at concrete failing inputs:
(1) `cleanup_translation_data` succeeds but leaves the loaded file in the
store — the `transbackup` taken at the top is never written back;
(2) `validate_translation_data` raises its `RuntimeWarning` *before* the
restore statement, leaving the loaded file in the store;
(3) `get_lang_readable_name` hits a `KeyError` on a file lacking
`__target_lang_readable` after the store was already replaced, and the
restore is skipped (no `try/finally`).
In each case the store before the call was `[("old", jstr "x")]` and after
the call it holds the loaded file's contents instead. -/
theorem Localize.c3_restore_skipped :
    (Localize.cleanup_translation_data
        [("pl.translation", .ok [("__source_lang", .jstr "en")])] "" "pl"
        ⟨some "en", none, [("old", .jstr "x")]⟩
      = (.ok "", ⟨some "en", none, [("__source_lang", .jstr "en")]⟩)) ∧
    ([("old", .jstr "x")] : Localize.TransData) ≠ [("__source_lang", .jstr "en")] ∧
    (Localize.validate_translation_data
        [("pl.translation", .ok [("__source_lang", .jstr "en")])] "" "en" "pl"
        ⟨some "en", none, [("old", .jstr "x")]⟩
      = (.error (.runtimeWarning ("Errors found in translation data:\n(!) Source phrase for the following keys does not exist on file:\n    \"__target_lang\": None,\n\n    \"__target_lang_readable\": None")),
         ⟨some "en", none, [("__source_lang", .jstr "en")]⟩)) ∧
    (Localize.get_lang_readable_name
        [("pl.translation", .ok [("x", .jstr "y")])] "pl"
        ⟨some "en", none, [("old", .jstr "x")]⟩
      = (.error (.keyError "__target_lang_readable"),
         ⟨some "en", none, [("x", .jstr "y")]⟩)) := by
  refine ⟨by decide, by decide, by decide, by decide⟩

/-- C5 (code bug): in `getlangs`, only `RuntimeError` is caught, so a load
failure for a candidate propagates in its original form instead of being
wrapped into a generic loading error naming the candidate.  Evaluated at
concrete inputs: a malformed `pl.translation` makes `getlangs("en")` raise
the original `JSONDecodeError`, and a `pl.translation` lacking
`__source_lang` makes it raise the original `KeyError`; neither is the
wrapped generic `RuntimeError` for `'pl'`. -/
theorem Localize.c5_load_failures_not_wrapped :
    ((Localize.getlangs [("pl.translation", .malformed)] "en"
        ⟨some "en", none, []⟩).1
      = .error (.jsonDecodeError (Localize.parseErrorMsg "pl"))) ∧
    ((Localize.getlangs [("pl.translation", .ok [("x", .jstr "y")])] "en"
        ⟨some "en", none, []⟩).1
      = .error (.keyError "__source_lang")) ∧
    ((Localize.getlangs [("pl.translation", .malformed)] "en"
        ⟨some "en", none, []⟩).1
      ≠ .error (.runtimeError (Localize.wrapLoadMsg "pl"))) := by
  refine ⟨by decide, by decide, by decide⟩

/-- C8 counterexample: the claim says a match is discarded exactly when a
comment marker precedes or overlaps the call.  On the line
`x = _("Hello") # done` the only `#` lies strictly after the call (the
prefix `x = _("Hello")` through the closing parenthesis contains no `#`),
yet the scan discards the match: the comment filter fires on a `#`
anywhere in the line. -/
theorem Localize.c8_counterexample :
    Localize.scanFrom ("x = _(\"Hello\") # done").data = some ("Hello").data ∧
    '#' ∉ ("x = _(\"Hello\")").data ∧
    ("x = _(\"Hello\") # done" : String)
      = "x = _(\"Hello\")" ++ " # done" ∧
    Localize.scanScript "x = _(\"Hello\") # done" = [] := by
  refine ⟨by decide, by decide, by decide, by decide⟩

/-- C8 amended: a match of the lookup idiom is discarded exactly when its
line contains the comment marker `#` anywhere on the line (before, inside,
or after the call), and kept otherwise; in particular a source text with
the lines `_("Hello")` and `# _("Ignored")` yields exactly `["Hello"]`. -/
theorem Localize.c8_comment_filter :
    Localize.scanScript "_(\"Hello\")\n# _(\"Ignored\")" = ["Hello"] ∧
    ∀ (script p : String),
      p ∈ Localize.scanScript script ↔
        ∃ line ∈ Localize.pyLines script,
          Localize.scanFrom line = some p.data ∧ '#' ∉ line := by
  constructor
  · decide
  · intro script p
    constructor
    · intro hp
      obtain ⟨line, hline, hf⟩ := List.mem_filterMap.mp hp
      rcases hscan : Localize.scanFrom line with _ | cap
      · simp [hscan] at hf
      · simp [hscan] at hf
        exact ⟨line, hline, by rw [hscan, ← hf.2], hf.1⟩
    · rintro ⟨line, hline, hscan, hhash⟩
      refine List.mem_filterMap.mpr ⟨line, hline, ?_⟩
      simp [hscan, hhash]

/-- C8 witness for the amended characterization, at the scenario input. -/
theorem Localize.c8_witness :
    "Hello" ∈ Localize.scanScript "_(\"Hello\")\n# _(\"Ignored\")" :=
  (Localize.c8_comment_filter.2 "_(\"Hello\")\n# _(\"Ignored\")" "Hello").mpr
    ⟨("_(\"Hello\")").data, by decide, by decide, by decide⟩

/-- C9 counterexample: `M` is not always 3.  A scanned phrase beginning with
`__` (here the source line `a = _("__x")`) lands in `scriptdata` and is
counted by the `key[:2] == "__"` subset, so the success summary reports
`plus 4 special keys` — not the `plus 3` the claim promises for every
scanned source text and conforming translation file. -/
theorem Localize.c9_counterexample :
    (Localize.validate_translation_data
        [("pl.translation", .ok
          [("__source_lang", .jstr "en"), ("__target_lang", .jstr "pl"),
           ("__target_lang_readable", .jstr "Polski"), ("__x", .jstr "y")])]
        "a = _(\"__x\")" "en" "pl" Localize.initState).1
      = .ok (Localize.validateSummary 0 4) ∧
    Localize.validateSummary 0 4 ≠ Localize.validateSummary 0 3 := by
  refine ⟨by decide, by decide⟩

/-- Overwriting the value of an existing key in place never changes which
keys are special, hence not the special-key count. -/
theorem Localize.specialCount_overwrite (k v : String)
    (hk : Localize.isSpecialKey k = false) (l : List (String × String)) :
    (List.filter (fun kv => Localize.isSpecialKey kv.1)
        (l.map (fun kv => if kv.1 = k then (k, v) else kv))).length
      = (List.filter (fun kv => Localize.isSpecialKey kv.1) l).length := by
  induction l with
  | nil => rfl
  | cons kv tl ih =>
    by_cases hkv : kv.1 = k
    · have hkvs : Localize.isSpecialKey kv.1 = false := by rw [hkv]; exact hk
      simp [List.filter_cons, hkv, hk, hkvs, ih]
    · cases hp : Localize.isSpecialKey kv.1 <;>
        simp [List.filter_cons, hkv, hp, ih]

/-- Updating the dict with a non-special key never changes the number of
special keys. -/
theorem Localize.specialCount_dictUpdate (d : List (String × String)) (k v : String)
    (hk : Localize.isSpecialKey k = false) :
    ((Localize.dictUpdate d k v).filter (fun kv => Localize.isSpecialKey kv.1)).length
      = (d.filter (fun kv => Localize.isSpecialKey kv.1)).length := by
  unfold Localize.dictUpdate
  split
  · exact Localize.specialCount_overwrite k v hk d
  · simp [List.filter_append, List.filter_cons, hk]

/-- Folding non-special phrases into the dict preserves the special-key
count. -/
theorem Localize.specialCount_fold (ps : List String) :
    ∀ d : List (String × String), (∀ p ∈ ps, Localize.isSpecialKey p = false) →
      ((ps.foldl (fun d p => Localize.dictUpdate d p "") d).filter
          (fun kv => Localize.isSpecialKey kv.1)).length
        = (d.filter (fun kv => Localize.isSpecialKey kv.1)).length := by
  induction ps with
  | nil => intro d _; rfl
  | cons p tl ih =>
    intro d hps
    have h1 := ih (Localize.dictUpdate d p "") (fun q hq => hps q (List.mem_cons_of_mem p hq))
    rw [List.foldl_cons, h1,
      Localize.specialCount_dictUpdate d p "" (hps p (List.mem_cons_self p tl))]

/-- When no scanned phrase begins with `__`, the `scriptdata` dict holds
exactly the three seeded special keys. -/
theorem Localize.specialCount_scriptDict (script s t : String)
    (hnp : ∀ p ∈ Localize.scanScript script, Localize.isSpecialKey p = false) :
    ((Localize.scriptDict script s t).filter
        (fun kv => Localize.isSpecialKey kv.1)).length = 3 := by
  unfold Localize.scriptDict
  rw [Localize.specialCount_fold (Localize.scanScript script) _ hnp]
  rfl

/-- C9 amended: when `validate_translation_data` succeeds and no scanned
phrase begins with `__`, the returned string is exactly
`"Found {N} unique translatable strings in file, plus 3 special keys. All
translation data OK."` with `N` the number of `scriptdata` entries beyond
the three special keys.  (In general `M` is the number of `scriptdata`
keys with prefix `__`, which exceeds 3 when a scanned phrase itself starts
with `__`.) -/
theorem Localize.c9_success_summary (fs : Localize.FS) (script s t : String)
    (st : Localize.LocState)
    (hs : Localize.pyLen s = 2) (ht : Localize.pyLen t = 2)
    (hnp : ∀ p ∈ Localize.scanScript script, Localize.isSpecialKey p = false) :
    ∀ out st', Localize.validate_translation_data fs script s t st = (.ok out, st') →
      out = Localize.validateSummary
        ((Localize.scriptDict script (Localize.pyLower s) (Localize.pyLower t)).length - 3)
        3 := by
  intro out st' h
  unfold Localize.validate_translation_data at h
  rw [if_neg (by simp [hs]), if_neg (by simp [ht])] at h
  rcases hload : Localize.loadTranslations fs (Localize.pyLower t) st with ⟨r, st''⟩
  rw [hload] at h
  rcases r with e | u
  · exact absurd h (by simp)
  · dsimp only at h
    by_cases hc :
      (Localize.validateIncompletes
          (Localize.scriptDict script (Localize.pyLower s) (Localize.pyLower t))
          st''.translations).length > 0 ∨
      (Localize.validateMissings
          (Localize.scriptDict script (Localize.pyLower s) (Localize.pyLower t))
          st''.translations).length > 0
    · rw [if_pos hc] at h
      exact absurd h (by simp)
    · rw [if_neg hc] at h
      have hout := congrArg Prod.fst h
      simp only [Prod.fst] at hout
      have hout2 := Except.ok.inj hout
      rw [← hout2, Localize.specialCount_scriptDict script _ _ hnp]

/-- C9 witness for the amended theorem, at a concrete scenario: one scanned
phrase `"Hello"`, a complete file; the summary names 1 string and 3 special
keys. -/
theorem Localize.c9_witness :
    Localize.validateSummary 1 3
      = Localize.validateSummary
          ((Localize.scriptDict "a = _(\"Hello\")" (Localize.pyLower "en")
              (Localize.pyLower "pl")).length - 3) 3 :=
  Localize.c9_success_summary
    [("pl.translation", .ok
      [("__source_lang", .jstr "en"), ("__target_lang", .jstr "pl"),
       ("__target_lang_readable", .jstr "Polski"), ("Hello", .jstr "Czesc")])]
    "a = _(\"Hello\")" "en" "pl" Localize.initState
    (by decide) (by decide) (by decide)
    (Localize.validateSummary 1 3) Localize.initState (by decide)


/-- `s[:2]` is the identity on two-character strings. -/
theorem Localize.pyTake2_of_len2 (x : String) (h : Localize.pyLen x = 2) :
    Localize.pyTake2 x = x := by
  unfold Localize.pyTake2
  rw [List.take_of_length_le (le_of_eq h)]

/-- Trimming `<code>.translation` to two characters recovers the code. -/
theorem Localize.pyTake2_code_translation (code y : String)
    (h : Localize.pyLen code = 2) :
    Localize.pyTake2 (code ++ y) = code := by
  unfold Localize.pyTake2
  rw [String.data_append]
  have h' : code.data.length = 2 := h
  rw [← h', List.take_left]

/-- The mismatch message contains the `"does not match"` marker the
`except RuntimeError` handler tests for. -/
theorem Localize.mismatchMsg_marker (lang dl sl : String) :
    Localize.containsStr (Localize.mismatchMsg lang dl sl) "does not match" := by
  refine ⟨("The translation file for '" ++ lang
      ++ "' defines a source language of '" ++ dl ++ "' which ").data,
    (" the " ++ "program's specified source language of '" ++ sl ++ "'.").data, ?_⟩
  have hlit : ("' which does not match the " : String).data
      = ("' which " : String).data ++ ("does not match" : String).data
        ++ (" the " : String).data := by decide
  simp [Localize.mismatchMsg, String.data_append, hlit, List.append_assoc]

/-- C6: whenever `getlangs(source_lang)` with a valid code returns a list,
that list is the lowercased source language followed by the discovered
`*.translation` resources trimmed to their two-character prefixes, in
discovery order; and a discovered resource declaring a `__source_lang`
whose lowercased form differs from the source language makes the call fail
with the consistency `RuntimeError` whose message names both language
codes. -/
theorem Localize.c6_getlangs_listing (fs : Localize.FS) (s : String)
    (st : Localize.LocState) (hs : Localize.pyLen s = 2) :
    (∀ r st', Localize.getlangs fs s st = (.ok r, st') →
      r = Localize.pyLower s
            :: (Localize.globTranslation fs).map Localize.pyTake2) ∧
    (∀ (code : String) (content : Localize.TransData) (d : String),
      Localize.pyLen code = 2 → code ≠ Localize.pyLower s →
      content.lookup "__source_lang" = some (.jstr d) →
      Localize.pyLower d ≠ Localize.pyLower s →
      (Localize.getlangs [(code ++ ".translation", .ok content)] s st).1
        = .error (.runtimeError
            (Localize.mismatchMsg code (Localize.pyLower d) (Localize.pyLower s))) ∧
      Localize.containsStr
        (Localize.mismatchMsg code (Localize.pyLower d) (Localize.pyLower s))
        (Localize.pyLower d) ∧
      Localize.containsStr
        (Localize.mismatchMsg code (Localize.pyLower d) (Localize.pyLower s))
        (Localize.pyLower s)) := by
  constructor
  · intro r st' h
    unfold Localize.getlangs at h
    rw [if_neg (by simp [hs])] at h
    dsimp only at h
    split at h
    · rename_i st'' heq
      have hfst := congrArg Prod.fst h
      simp only [Prod.fst] at hfst
      have hr := Except.ok.inj hfst
      rw [← hr, List.map_cons,
        Localize.pyTake2_of_len2 _ (by rw [Localize.pyLen_pyLower]; exact hs)]
    · exact absurd h (by simp)
  · intro code content d hc hcs hd hds
    have hglob : Localize.globTranslation [(code ++ ".translation", .ok content)]
        = [code ++ ".translation"] := by
      unfold Localize.globTranslation
      have hsuf : (".translation" : String).data <:+ (code ++ ".translation").data := by
        rw [String.data_append]; exact List.suffix_append _ _
      simp [hsuf]
    have hlook : Localize.fsLookup [(code ++ ".translation", .ok content)]
        (code ++ ".translation") = some (.ok content) := by
      simp [Localize.fsLookup, List.lookup]
    have hstep : Localize.getlangsStep [(code ++ ".translation", .ok content)]
        (Localize.pyLower s) code st
        = (.error (.runtimeError
            (Localize.mismatchMsg code (Localize.pyLower d) (Localize.pyLower s))),
           { st with translations := content }) := by
      simp only [Localize.getlangsStep, Localize.loadTranslations, hlook, hd]
      rw [if_pos hds]
      dsimp only
      rw [if_pos (Localize.mismatchMsg_marker code
        (Localize.pyLower d) (Localize.pyLower s))]
    refine ⟨?_, ?_, ?_⟩
    · unfold Localize.getlangs
      rw [if_neg (by simp [hs])]
      dsimp only
      rw [hglob]
      rw [show List.map Localize.pyTake2
          (Localize.pyLower s :: [code ++ ".translation"])
        = [Localize.pyLower s, code] from by
          rw [List.map_cons, List.map_cons, List.map_nil,
            Localize.pyTake2_of_len2 _ (by rw [Localize.pyLen_pyLower]; exact hs),
            Localize.pyTake2_code_translation code ".translation" hc]]
      unfold Localize.getlangsLoop
      rw [if_pos rfl]
      unfold Localize.getlangsLoop
      rw [if_neg hcs, hstep]
    · exact Localize.containsStr_of_eq
        ("The translation file for '" ++ code
          ++ "' defines a source language of '")
        ("' which does not match the "
          ++ "program's specified source language of '" ++ Localize.pyLower s ++ "'.")
        (by simp [Localize.mismatchMsg, String.append_assoc])
    · exact Localize.containsStr_of_eq
        ("The translation file for '" ++ code
          ++ "' defines a source language of '" ++ Localize.pyLower d
          ++ "' which does not match the "
          ++ "program's specified source language of '")
        "'."
        (by simp [Localize.mismatchMsg, String.append_assoc])

/-- C6 witness: source `"en"`, one discovered file `pl.translation`
declaring source `"de"`: the call fails with the mismatch error naming
`de` and `en`. -/
theorem Localize.c6_witness :
    (Localize.getlangs [("pl" ++ ".translation", .ok [("__source_lang", .jstr "de")])]
        "en" Localize.initState).1
      = .error (.runtimeError
          (Localize.mismatchMsg "pl" (Localize.pyLower "de") (Localize.pyLower "en"))) :=
  ((Localize.c6_getlangs_listing [] "en" Localize.initState (by decide)).2
    "pl" [("__source_lang", .jstr "de")] "de"
    (by decide) (by decide) (by decide) (by decide)).1

/-- C7 counterexample: the operations do not all behave identically on
`'PL'`/`'pl'` and `'EN'`/`'en'`.  `get_lang_readable_name` does not
lowercase its argument: with only `pl.translation` on disk, `'pl'` returns
the readable name while `'PL'` raises `FileNotFoundError` for
`PL.translation`; and its English bypass is case-sensitive, so `'en'`
returns `"English"` while `'EN'` tries to open `EN.translation`. -/
theorem Localize.c7_counterexample :
    ((Localize.get_lang_readable_name
        [("pl.translation", .ok [("__target_lang_readable", .jstr "Polski")])] "pl"
        Localize.initState).1 = .ok (.jstr "Polski")) ∧
    ((Localize.get_lang_readable_name
        [("pl.translation", .ok [("__target_lang_readable", .jstr "Polski")])] "PL"
        Localize.initState).1
      = .error (.fileNotFound (Localize.fileNotFoundMsg "PL"))) ∧
    ((Localize.get_lang_readable_name [] "en" Localize.initState).1
      = .ok (.jstr "English")) ∧
    ((Localize.get_lang_readable_name [] "EN" Localize.initState).1
      = .error (.fileNotFound (Localize.fileNotFoundMsg "EN"))) := by
  refine ⟨by decide, by decide, by decide, by decide⟩

/-- A failed or successful load never touches `__source_lang`. -/
theorem Localize.loadTranslations_source (fs : Localize.FS) (x : String)
    (st : Localize.LocState) :
    ((Localize.loadTranslations fs x st).2).source_lang = st.source_lang := by
  unfold Localize.loadTranslations
  split <;> rfl

/-- A failed or successful load never touches `__target_lang`. -/
theorem Localize.loadTranslations_target (fs : Localize.FS) (x : String)
    (st : Localize.LocState) :
    ((Localize.loadTranslations fs x st).2).target_lang = st.target_lang := by
  unfold Localize.loadTranslations
  split <;> rfl

/-- C7 amended: every public operation rejects a code argument that is not
a two-character string with the `ValueError` of its validation clause; but
only `translator`, `getlangs`, `get_data_template` and
`validate_translation_data` lowercase accepted codes before use —
`get_lang_readable_name` and `cleanup_translation_data` consult the
resource named by the code exactly as given (and the `'en'` bypass of
`get_lang_readable_name` is case-sensitive), so those two operations
distinguish `'PL'` from `'pl'`. -/
theorem Localize.c7_code_handling :
    (∀ (fs : Localize.FS) (st : Localize.LocState) (s : String) (tgt : Option String),
      Localize.pyLen s ≠ 2 →
      (Localize.translator fs s tgt st).1 = .error (.valueError Localize.srcLangValueMsg)) ∧
    (∀ (fs : Localize.FS) (st : Localize.LocState) (s t : String),
      Localize.pyLen s = 2 → Localize.pyLen t ≠ 2 →
      (Localize.translator fs s (some t) st).1
        = .error (.valueError Localize.tgtLangValueMsgTranslator)) ∧
    (∀ (fs : Localize.FS) (st : Localize.LocState) (lang : String),
      Localize.pyLen lang ≠ 2 →
      (Localize.get_lang_readable_name fs lang st).1
        = .error (.valueError Localize.srcLangValueMsg)) ∧
    (∀ (fs : Localize.FS) (st : Localize.LocState) (s : String),
      Localize.pyLen s ≠ 2 →
      (Localize.getlangs fs s st).1 = .error (.valueError Localize.getlangsValueMsg)) ∧
    (∀ (script s t : String), Localize.pyLen s ≠ 2 →
      Localize.get_data_template script s t = .error (.valueError Localize.srcLangValueMsg)) ∧
    (∀ (script s t : String), Localize.pyLen s = 2 → Localize.pyLen t ≠ 2 →
      Localize.get_data_template script s t
        = .error (.valueError Localize.tgtLangValueMsgTwoChar)) ∧
    (∀ (fs : Localize.FS) (script : String) (st : Localize.LocState) (t : String),
      Localize.pyLen t ≠ 2 →
      (Localize.cleanup_translation_data fs script t st).1
        = .error (.valueError Localize.tgtLangValueMsgTwoChar)) ∧
    (∀ (fs : Localize.FS) (script : String) (st : Localize.LocState) (s t : String),
      Localize.pyLen s ≠ 2 →
      (Localize.validate_translation_data fs script s t st).1
        = .error (.valueError Localize.srcLangValueMsg)) ∧
    (∀ (fs : Localize.FS) (script : String) (st : Localize.LocState) (s t : String),
      Localize.pyLen s = 2 → Localize.pyLen t ≠ 2 →
      (Localize.validate_translation_data fs script s t st).1
        = .error (.valueError Localize.tgtLangValueMsgTwoChar)) ∧
    (∀ (fs : Localize.FS) (st : Localize.LocState) (s : String) (tgt : Option String),
      Localize.pyLen s = 2 →
      ((Localize.translator fs s tgt st).2).source_lang = some (Localize.pyLower s)) ∧
    (∀ (fs : Localize.FS) (st : Localize.LocState) (s t : String),
      Localize.pyLen s = 2 → Localize.pyLen t = 2 →
      ((Localize.translator fs s (some t) st).2).target_lang
        = some (Localize.pyLower t)) ∧
    (∀ (script s t : String), Localize.pyLen s = 2 → Localize.pyLen t = 2 →
      Localize.get_data_template script s t
        = .ok (Localize.jsonDumps
            (Localize.scriptDict script (Localize.pyLower s) (Localize.pyLower t)))) ∧
    (∀ (fs : Localize.FS) (script : String) (st : Localize.LocState) (s t : String),
      Localize.pyLen s = 2 → Localize.pyLen t = 2 →
      Localize.fsLookup fs (Localize.pyLower t ++ ".translation") = none →
      (Localize.validate_translation_data fs script s t st).1
        = .error (.fileNotFound (Localize.fileNotFoundMsg (Localize.pyLower t)))) ∧
    (∀ (fs : Localize.FS) (st : Localize.LocState) (lang : String),
      lang ≠ "en" → Localize.pyLen lang = 2 →
      Localize.fsLookup fs (lang ++ ".translation") = none →
      (Localize.get_lang_readable_name fs lang st).1
        = .error (.fileNotFound (Localize.fileNotFoundMsg lang))) ∧
    (∀ (fs : Localize.FS) (script : String) (st : Localize.LocState) (t : String),
      Localize.pyLen t = 2 →
      Localize.fsLookup fs (t ++ ".translation") = none →
      (Localize.cleanup_translation_data fs script t st).1
        = .error (.fileNotFound (Localize.fileNotFoundMsg t))) := by
  refine ⟨?_, ?_, ?_, ?_, ?_, ?_, ?_, ?_, ?_, ?_, ?_, ?_, ?_, ?_, ?_⟩
  · intro fs st s tgt h
    unfold Localize.translator
    rw [if_pos h]
  · intro fs st s t hs ht
    simp [Localize.translator, hs, ht]
  · intro fs st lang h
    have hen : lang ≠ "en" := fun he => h (by rw [he]; decide)
    unfold Localize.get_lang_readable_name
    rw [if_neg hen, if_pos h]
  · intro fs st s h
    unfold Localize.getlangs
    rw [if_pos h]
  · intro script s t h
    unfold Localize.get_data_template
    rw [if_pos h]
  · intro script s t hs ht
    unfold Localize.get_data_template
    rw [if_neg (by simp [hs]), if_pos ht]
  · intro fs script st t h
    unfold Localize.cleanup_translation_data
    rw [if_pos h]
  · intro fs script st s t h
    unfold Localize.validate_translation_data
    rw [if_pos h]
  · intro fs script st s t hs ht
    unfold Localize.validate_translation_data
    rw [if_neg (by simp [hs]), if_pos ht]
  · intro fs st s tgt hs
    unfold Localize.translator
    rw [if_neg (by simp [hs])]
    rcases tgt with _ | t
    · rfl
    · dsimp only
      by_cases ht : Localize.pyLen t = 2
      · rw [if_pos ht]
        by_cases hne : Localize.pyLower t ≠ Localize.pyLower s
        · rw [if_pos hne, Localize.loadTranslations_source]
        · rw [if_neg hne]
      · rw [if_neg ht]
  · intro fs st s t hs ht
    unfold Localize.translator
    rw [if_neg (by simp [hs])]
    dsimp only
    rw [if_pos ht]
    by_cases hne : Localize.pyLower t ≠ Localize.pyLower s
    · rw [if_pos hne, Localize.loadTranslations_target]
    · rw [if_neg hne]
  · intro script s t hs ht
    unfold Localize.get_data_template
    rw [if_neg (by simp [hs]), if_neg (by simp [ht])]
  · intro fs script st s t hs ht hnone
    unfold Localize.validate_translation_data
    rw [if_neg (by simp [hs]), if_neg (by simp [ht])]
    have hl : Localize.loadTranslations fs (Localize.pyLower t) st
        = (.error (.fileNotFound (Localize.fileNotFoundMsg (Localize.pyLower t))), st) := by
      unfold Localize.loadTranslations
      rw [hnone]
    rw [hl]
  · intro fs st lang hen hl2 hnone
    unfold Localize.get_lang_readable_name
    rw [if_neg hen, if_neg (by simp [hl2])]
    have hl : Localize.loadTranslations fs lang st
        = (.error (.fileNotFound (Localize.fileNotFoundMsg lang)), st) := by
      unfold Localize.loadTranslations
      rw [hnone]
    rw [hl]
  · intro fs script st t ht hnone
    unfold Localize.cleanup_translation_data
    rw [if_neg (by simp [ht])]
    have hl : Localize.loadTranslations fs t st
        = (.error (.fileNotFound (Localize.fileNotFoundMsg t)), st) := by
      unfold Localize.loadTranslations
      rw [hnone]
    rw [hl]

/-- C7 witness: `get_lang_readable_name` with code `"pl"` and no resources
consults exactly `pl.translation` and raises the corresponding
`FileNotFoundError`. -/
theorem Localize.c7_witness :
    (Localize.get_lang_readable_name [] "pl" Localize.initState).1
      = .error (.fileNotFound (Localize.fileNotFoundMsg "pl")) :=
  Localize.c7_code_handling.2.2.2.2.2.2.2.2.2.2.2.2.2.1
    [] Localize.initState "pl" (by decide) (by decide) (by decide)
